import Mathlib

/-!
Verification of the Slack message-handling orchestrator
(`backend/danswer/danswerbot/slack/handlers/handle_message.py`) and the
one-shot-answer request models (`backend/danswer/one_shot_answer/models.py`).

The Python code is shallowly embedded: pure computations become Lean
functions, exceptions become an explicit `Except`/`Option` outcome, and the
calls to external collaborators (Slack client, database, generation engine)
are abstracted by an environment record that fixes each call's outcome while
a trace records the user-visible effects the orchestrator performs.
-/

namespace Danswer

/-- Python truthiness of an optional string (`None` and `""` are falsy). -/
def strTruthy : Option String → Bool
  | none => false
  | some s => !s.isEmpty

/-! ## `one_shot_answer/models.py` -/

/-- `MessageType` from `danswer/configs/constants.py` (role of a thread
message). -/
inductive MessageType where
  | system
  | user
  | assistant
deriving DecidableEq, Repr

/-- `ThreadMessage` (models.py lines 16-19). -/
structure ThreadMessage where
  message : String
  sender : Option String
  role : MessageType
deriving DecidableEq, Repr

/-- `DirectQARequest` (models.py lines 22-28); `retrieval_options` is an
external search-model record with no bearing on the claims, elided here. -/
structure DirectQARequest where
  messages : List ThreadMessage
  prompt_id : Option Int
  persona_id : Int
  chain_of_thought : Bool := false
  return_contexts : Bool := false
deriving DecidableEq, Repr

/-- The pydantic root validator `check_chain_of_thought_and_prompt_id`
(models.py lines 30-42) runs at construction time: constructing a
`DirectQARequest` yields a validation error exactly when the validator
raises, otherwise the populated record. -/
def DirectQARequest.construct (messages : List ThreadMessage)
    (prompt_id : Option Int) (persona_id : Int) (chain_of_thought : Bool)
    (return_contexts : Bool := false) : Except String DirectQARequest :=
  if chain_of_thought ∧ prompt_id ≠ none then
    .error ("If chain_of_thought is True, prompt_id must be None" ++
      "The chain of thought prompt is only for question " ++
      "answering and does not accept customizing.")
  else
    .ok ⟨messages, prompt_id, persona_id, chain_of_thought, return_contexts⟩

/-- `QADocsResponse` (the retrieved-document bundle); documents are opaque,
modelled as natural-number identifiers.  Only the fields read by
`handle_message` are kept. -/
structure QADocsResponse where
  top_documents : List Nat
  applied_source_filters : Option (List String) := none
  applied_time_cutoff : Option String := none
  recency_bias_multiplier : ℚ := 1
deriving DecidableEq, Repr

/-- `OneShotQAResponse` (models.py lines 45-55); quotes are opaque strings. -/
structure OneShotQAResponse where
  answer : Option String := none
  rephrase : Option String := none
  quotes : Option (List String) := none
  docs : Option QADocsResponse := none
  llm_chunks_indices : Option (List Nat) := none
  error_msg : Option String := none
  answer_valid : Bool := true
  chat_message_id : Option Int := none
  return_contexts : Bool := false
deriving DecidableEq, Repr

/-! ## Exceptions raised by `handle_message` itself -/

/-- Python exceptions that `handle_message` can raise past its caller:
the `RuntimeError` of line 350 (document bundle absent), the `IndexError`
of a failing `top_docs[i]` subscript at line 391, and the transport error
of an uncaught error-notice `respond_in_thread` (lines 304-311, 359-366). -/
inductive PyError where
  | runtimeError
  | indexError
  | apiError
deriving DecidableEq, Repr

/-! ## Document re-ordering (handle_message.py lines 390-395) -/

/-- Python list subscript `l[i]`: the element when `i` is in range, an
`IndexError` otherwise (the indices that occur here are non-negative). -/
def pyIndex (l : List Nat) (i : Nat) : Except PyError Nat :=
  match l[i]? with
  | some d => .ok d
  | none => .error .indexError

/-- `llm_docs = [top_docs[i] for i in llm_doc_inds]` (line 391): the
comprehension evaluates left to right and raises at the first
out-of-range subscript. -/
def llm_docs (topDocs : List Nat) : List Nat → Except PyError (List Nat)
  | [] => .ok []
  | i :: rest =>
    match pyIndex topDocs i with
    | .error e => .error e
    | .ok d =>
      match llm_docs topDocs rest with
      | .error e => .error e
      | .ok ds => .ok (d :: ds)

/-- `remaining_docs = [doc for idx, doc in enumerate(top_docs) if idx not in
llm_doc_inds]` (lines 392-394). -/
def remaining_docs (topDocs : List Nat) (inds : List Nat) : List Nat :=
  (topDocs.enum.filter (fun p => decide (p.1 ∉ inds))).map Prod.snd

/-- `priority_ordered_docs = llm_docs + remaining_docs` (line 395), with the
`IndexError` of the comprehension propagated. -/
def priority_ordered_docs (topDocs : List Nat) (inds : List Nat) :
    Except PyError (List Nat) :=
  match llm_docs topDocs inds with
  | .error e => .error e
  | .ok lds => .ok (lds ++ remaining_docs topDocs inds)

/-- The spec's wording of the fed partition: the documents whose index is in
the fed-indices list, in the order in which they appear in `top_documents`. -/
def specFedDocs (topDocs : List Nat) (inds : List Nat) : List Nat :=
  ((List.range topDocs.length).filter (fun i => decide (i ∈ inds))).map
    (fun i => topDocs.getD i 0)

/-! ## Admission wrapper (`rate_limits`, handle_message.py lines 56-72) -/

/-- In-use counter of the module-level `SlackRateLimiter` instance `srl`.
Modelled from the spec: the limiter class itself lives in
`danswer/danswerbot/slack/utils.py`, outside the sources; spec section 4.2
describes its state as capacity, a current in-use count, and a FIFO wait
queue.  Only the in-use count is observable through the wrapper. -/
structure SlackRateLimiterState where
  active_question : Nat
deriving DecidableEq, Repr

/-- Modelled from the spec: `srl.acquire_slot()` — acquiring a slot
increments the in-use count (spec section 4.2, `try_enter`). -/
def acquire_slot (s : SlackRateLimiterState) : SlackRateLimiterState :=
  { s with active_question := s.active_question + 1 }

/-- The `wrapper` closure of the `rate_limits` decorator (lines 61-68): wait
until a slot is available, `acquire_slot`, then call the wrapped function
and pass its outcome through.  The wait loop precedes acquisition and
mutates nothing but the wait queue, so the limiter state at the moment of
acquisition is taken as input; `outcome` is the wrapped call's result
(`none` = the call raised).  No path of the wrapper releases the slot. -/
def rate_limits_wrapper (s : SlackRateLimiterState) (outcome : Option α) :
    SlackRateLimiterState × Option α :=
  (acquire_slot s, outcome)

/-! ## Retrying dispatcher (`_get_answer`, handle_message.py lines 206-262) -/

/-- Outcome of one raw generation call (`get_search_answer`): either the call
raised, or it returned a (possibly partial) response object. -/
inductive GenOutcome where
  | raised
  | returned (a : OneShotQAResponse)

/-- Body of `_get_answer` around the generation call (lines 259-262): a
returned response with a truthy `error_msg` is re-raised as a
`RuntimeError`, so the attempt fails; otherwise the response is returned.
The result `none` means the attempt raised. -/
def getAnswerAttempt (gen : Nat → GenOutcome) (k : Nat) :
    Option OneShotQAResponse :=
  match gen k with
  | .raised => none
  | .returned a => if strTruthy a.error_msg then none else some a

/-- The `retry` decorator loop (`tries`, `delay`, `backoff`; lines 206-211):
`tries` total attempts, sleeping `delay` then `delay * backoff` … between
attempts, re-raising when the attempt budget is exhausted.  Returns the
final outcome (`none` = raised), the number of attempts made, and the list
of backoff delays slept, in order. -/
def retryRun (att : Nat → Option α) (b : ℚ) :
    Nat → Nat → ℚ → Option α × Nat × List ℚ
  | 0, _, _ => (none, 0, [])
  | 1, k, _ => (att k, 1, [])
  | t + 2, k, d =>
    match att k with
    | some a => (some a, 1, [])
    | none =>
      let r := retryRun att b (t + 1) (k + 1) (d * b)
      (r.1, r.2.1 + 1, d :: r.2.2)

/-- The dispatch of one event: `_get_answer` is `retry(tries=num_retries,
delay=0.25, backoff=2)` wrapped around the attempt body. -/
def getAnswerRun (gen : Nat → GenOutcome) (numRetries : Nat) :
    Option OneShotQAResponse × Nat × List ℚ :=
  retryRun (getAnswerAttempt gen) 2 numRetries 0 (1 / 4)

/-! ## Token budgeter (`_get_answer`, handle_message.py lines 224-245) -/

/-- Python `int()` applied to a non-integral number truncates toward zero. -/
def pyIntTrunc (q : ℚ) : ℤ :=
  if 0 ≤ q then ⌊q⌋ else -⌊-q⌋

/-- `max_history_tokens = int(input_tokens * thread_context_percent)`
(line 229), in the multi-turn branch. -/
def max_history_tokens (inputTokens : ℤ) (threadContextPercent : ℚ) : ℤ :=
  pyIntTrunc (inputTokens * threadContextPercent)

/-- `max_document_tokens = remaining_tokens - 512 -
check_number_of_tokens(query_text)` (lines 231, 241-245), the branch taken
when no persona is configured; `queryTokens` is the token count of the
first thread message. -/
def max_document_tokens (inputTokens : ℤ) (threadContextPercent : ℚ)
    (queryTokens : ℤ) : ℤ :=
  (inputTokens - max_history_tokens inputTokens threadContextPercent) - 512 -
    queryTokens

/-! ## The orchestrator (`handle_message`, handle_message.py lines 95-441)

The configuration record collects the channel-policy and flag values the
function branches on; the environment record fixes the outcome of each
external call; the trace records the user-visible effects performed. -/

/-- Branch-relevant configuration of one `handle_message` call.
`respond_tag_only` and `respond_team_member_list` are the values computed at
lines 176-177 (they are only truthy when a channel config is present);
`should_respond_even_with_no_docs` is `persona.num_chunks == 0 if persona
else False` (line 138). -/
structure HandleCfg where
  bypass_filters : Bool := false
  is_bot_msg : Bool := false
  sender_present : Bool := false
  has_channel_conf : Bool := false
  answer_filters_present : Bool := false
  questionmark_prefilter_on : Bool := false
  msg_has_question_mark : Bool := false
  respond_tag_only : Bool := false
  respond_team_member_list : Bool := false
  should_respond_even_with_no_docs : Bool := false
  disable_docs_only_answer : Bool := false
  should_respond_with_error_msgs : Bool := false
deriving DecidableEq, Repr

/-- Outcomes of the external calls made during one `handle_message` run.
`dispatch` is the outcome of the whole `_get_answer` retry loop (`none` =
it raised, caught at line 297; `some a` = it returned `a`, which then has a
falsy `error_msg` by lines 259-262).  The Slack-API failures of the ack and
of the reaction removal are caught and logged (lines 203, 322, 336).  The
optional error-notice posts are NOT guarded by any try: `notice_raises`
models a raising `respond_in_thread` at lines 304-311 (dispatch-failure
notice, raised before the removal attempt of lines 313-321) or at lines
359-366 (no-documents notice); such a raise propagates out of
`handle_message`.  The final-delivery failure (lines 410-441) is caught
broadly and yields the returned outcome `True`. -/
structure HandleEnv where
  ack_raises : Bool := false
  dispatch : Option OneShotQAResponse := none
  notice_raises : Bool := false
  removal_raises : Bool := false
  delivery_raises : Bool := false
deriving DecidableEq, Repr

/-- User-visible effects of one `handle_message` run: whether the
acknowledgment was signalled (line 202), how many times removal of the
acknowledgment reaction was attempted (lines 315, 329), how many optional
debug error notices were posted (lines 304-311, 359-366), whether the
team-routing notice of lines 191-199 was posted, and the document list of
the delivered payload (`none` = no payload delivered). -/
structure HandleTrace where
  ack_signaled : Bool := false
  removal_attempts : Nat := 0
  error_notices : Nat := 0
  team_notice : Bool := false
  payload : Option (List Nat) := none
deriving DecidableEq, Repr

/-- Result of one `handle_message` run: a returned boolean, or an uncaught
exception. -/
inductive HandleResult where
  | ret (b : Bool)
  | raise (e : PyError)
deriving DecidableEq, Repr

/-- Continuation of `handle_message` from line 339 on, entered after the
dispatch returned `answer` and the reaction-removal attempt of lines
328-337 was made (already recorded in `tr`): validity gate (339-345),
document-presence gate (347-350), no-documents gate (352-367, whose
optional notice at 359-366 is uncaught and may raise), docs-only
suppression (369-374), document re-ordering (390-395) and delivery
(410-441). -/
def processAnswer (cfg : HandleCfg) (env : HandleEnv)
    (answer : OneShotQAResponse) (tr : HandleTrace) :
    HandleResult × HandleTrace :=
  if answer.answer_valid = false then
    (.ret true, tr)
  else
    match answer.docs with
    | none => (.raise .runtimeError, tr)
    | some retrievalInfo =>
      let topDocs := retrievalInfo.top_documents
      if topDocs.isEmpty && !cfg.should_respond_even_with_no_docs then
        if cfg.should_respond_with_error_msgs then
          if env.notice_raises then
            (.raise .apiError, tr)
          else
            (.ret true, { tr with error_notices := tr.error_notices + 1 })
        else
          (.ret true, tr)
      else if !strTruthy answer.answer && cfg.disable_docs_only_answer then
        (.ret true, tr)
      else
        match priority_ordered_docs topDocs (answer.llm_chunks_indices.getD []) with
        | .error e => (.raise e, tr)
        | .ok pod =>
          if env.delivery_raises then
            (.ret true, tr)
          else
            (.ret false, { tr with payload := some pod })

/-- `handle_message` (lines 95-441).  The question-mark prefilter (158-168)
and the tag-only policy (179-184) return `False` before the acknowledgment;
afterwards the team-routing notice (186-199) and the acknowledgment
(201-204) are performed and the dispatch outcome decides between the
failure path (297-325) and the answer path (327 on).  On the failure path
the optional error notice of lines 304-311 is uncaught: if it raises, the
exception propagates before the removal attempt of lines 313-321 is
reached; otherwise the removal is attempted once.  On the answer path the
removal is attempted once (328-337) before the gates run. -/
def handle_message (cfg : HandleCfg) (env : HandleEnv) :
    HandleResult × HandleTrace :=
  if !cfg.bypass_filters && cfg.has_channel_conf && cfg.answer_filters_present
      && cfg.questionmark_prefilter_on && !cfg.msg_has_question_mark then
    (.ret false, {})
  else if cfg.respond_tag_only && !cfg.bypass_filters then
    (.ret false, {})
  else
    let tr : HandleTrace :=
      { ack_signaled := true,
        team_notice := cfg.respond_team_member_list && cfg.is_bot_msg &&
          cfg.sender_present }
    match env.dispatch with
    | none =>
      if cfg.should_respond_with_error_msgs then
        if env.notice_raises then
          (.raise .apiError, tr)
        else
          let tr := { tr with error_notices := tr.error_notices + 1 }
          (.ret true, { tr with removal_attempts := tr.removal_attempts + 1 })
      else
        (.ret true, { tr with removal_attempts := tr.removal_attempts + 1 })
    | some answer =>
      processAnswer cfg env answer
        { tr with removal_attempts := tr.removal_attempts + 1 }

/-! ## Helper lemmas -/

/-- If some fed index is out of range, the comprehension of line 391 raises
an `IndexError`. -/
lemma llm_docs_oob (l : List Nat) :
    ∀ inds : List Nat, (∃ i ∈ inds, l.length ≤ i) →
    llm_docs l inds = .error .indexError := by
  intro inds
  induction inds with
  | nil => rintro ⟨i, hi, -⟩; exact absurd hi (List.not_mem_nil i)
  | cons j rest ih =>
    rintro ⟨i, hi, hlen⟩
    by_cases hj : j < l.length
    · have hrest : ∃ i ∈ rest, l.length ≤ i := by
        rcases List.mem_cons.mp hi with rfl | hmem
        · omega
        · exact ⟨i, hmem, hlen⟩
      have hsome : l[j]? = some l[j] := List.getElem?_eq_getElem hj
      simp [llm_docs, pyIndex, hsome, ih hrest]
    · have hnone : l[j]? = none := by
        rw [List.getElem?_eq_none_iff]; omega
      simp [llm_docs, pyIndex, hnone]

/-- With all fed indices in range, the comprehension of line 391 returns the
indexed documents, in the order of the index list. -/
lemma llm_docs_ok (l : List Nat) :
    ∀ inds : List Nat, (∀ i ∈ inds, i < l.length) →
    llm_docs l inds = .ok (inds.map (fun i => l.getD i 0)) := by
  intro inds
  induction inds with
  | nil => intro _; simp [llm_docs]
  | cons j rest ih =>
    intro hb
    have hj : j < l.length := hb j (List.mem_cons_self j rest)
    have hsome : l[j]? = some l[j] := List.getElem?_eq_getElem hj
    have hgd : l.getD j 0 = l[j] := List.getD_eq_getElem l 0 hj
    have hrest := ih (fun i hi => hb i (List.mem_cons_of_mem j hi))
    simp [llm_docs, pyIndex, hsome, hrest, hgd]

/-- Two strictly increasing lists of naturals with the same members are
equal. -/
lemma eq_of_pairwise_lt_of_mem_iff :
    ∀ l₁ l₂ : List Nat, l₁.Pairwise (· < ·) → l₂.Pairwise (· < ·) →
    (∀ x, x ∈ l₁ ↔ x ∈ l₂) → l₁ = l₂ := by
  intro l₁
  induction l₁ with
  | nil =>
    intro l₂ _ _ hm
    cases l₂ with
    | nil => rfl
    | cons b t =>
      exact absurd ((hm b).mpr (List.mem_cons_self b t)) (List.not_mem_nil b)
  | cons a t ih =>
    intro l₂ h₁ h₂ hm
    cases l₂ with
    | nil => exact absurd ((hm a).mp (List.mem_cons_self a t)) (List.not_mem_nil a)
    | cons b t₂ =>
      obtain ⟨ha₁, ht₁⟩ := List.pairwise_cons.mp h₁
      obtain ⟨hb₂, ht₂⟩ := List.pairwise_cons.mp h₂
      have hab : a = b := by
        rcases List.mem_cons.mp ((hm a).mp (List.mem_cons_self a t)) with h | h
        · exact h
        · rcases List.mem_cons.mp ((hm b).mpr (List.mem_cons_self b t₂)) with h' | h'
          · exact h'.symm
          · exact absurd (ha₁ b h') (not_lt.mpr (le_of_lt (hb₂ a h)))
      subst hab
      have htm : ∀ x, x ∈ t ↔ x ∈ t₂ := by
        intro x
        constructor
        · intro hx
          rcases List.mem_cons.mp ((hm x).mp (List.mem_cons_of_mem a hx)) with h | h
          · exact absurd (ha₁ x hx) (by omega)
          · exact h
        · intro hx
          rcases List.mem_cons.mp ((hm x).mpr (List.mem_cons_of_mem a hx)) with h | h
          · exact absurd (hb₂ x hx) (by omega)
          · exact h
      rw [ih t₂ ht₁ ht₂ htm]

/-- Filtering `range n` by membership in a strictly increasing, in-bounds
index list gives back that list. -/
lemma filter_range_eq (inds : List Nat) (n : Nat)
    (hs : inds.Pairwise (· < ·)) (hb : ∀ i ∈ inds, i < n) :
    (List.range n).filter (fun i => decide (i ∈ inds)) = inds := by
  apply eq_of_pairwise_lt_of_mem_iff
  · exact (List.pairwise_lt_range n).filter _
  · exact hs
  · intro x
    simp only [List.mem_filter, List.mem_range, decide_eq_true_eq]
    exact ⟨fun h => h.2, fun h => ⟨hb x h, h⟩⟩

/-- For a strictly increasing, in-bounds index list, the spec's fed
partition is the documents indexed by the list, in list order. -/
lemma specFedDocs_eq (topDocs inds : List Nat)
    (hs : inds.Pairwise (· < ·)) (hb : ∀ i ∈ inds, i < topDocs.length) :
    specFedDocs topDocs inds = inds.map (fun i => topDocs.getD i 0) := by
  rw [specFedDocs, filter_range_eq inds topDocs.length hs hb]

/-- An out-of-range fed index makes the re-ordering of lines 390-395 raise. -/
lemma priority_ordered_docs_oob (topDocs inds : List Nat)
    (h : ∃ i ∈ inds, topDocs.length ≤ i) :
    priority_ordered_docs topDocs inds = .error .indexError := by
  rw [priority_ordered_docs, llm_docs_oob topDocs inds h]

/-- The retry loop makes at most `tries` attempts. -/
lemma retryRun_calls_le (att : Nat → Option α) (b : ℚ) :
    ∀ t k d, (retryRun att b t k d).2.1 ≤ t := by
  intro t
  induction t using Nat.strong_induction_on with
  | _ t ih =>
    match t with
    | 0 => intro k d; simp [retryRun]
    | 1 => intro k d; simp [retryRun]
    | t + 2 =>
      intro k d
      cases hak : att k with
      | some a => simp [retryRun, hak]
      | none =>
        have h := ih (t + 1) (by omega) (k + 1) (d * b)
        simp only [retryRun, hak]
        omega

/-- The `j`-th backoff delay slept by the retry loop (0-indexed) is
`d * b ^ j`. -/
lemma retryRun_delays (att : Nat → Option α) (b : ℚ) :
    ∀ t k d j, j < (retryRun att b t k d).2.2.length →
    (retryRun att b t k d).2.2.get? j = some (d * b ^ j) := by
  intro t
  induction t using Nat.strong_induction_on with
  | _ t ih =>
    match t with
    | 0 => intro k d j hj; simp [retryRun] at hj
    | 1 => intro k d j hj; simp [retryRun] at hj
    | t + 2 =>
      intro k d j hj
      cases hak : att k with
      | some a => simp [retryRun, hak] at hj
      | none =>
        simp only [retryRun, hak] at hj ⊢
        match j with
        | 0 => simp
        | j + 1 =>
          have hlen : j < (retryRun att b (t + 1) (k + 1) (d * b)).2.2.length := by
            simpa using hj
          have h := ih (t + 1) (by omega) (k + 1) (d * b) j hlen
          simp only [List.get?_cons_succ, h]
          congr 1
          ring

/-- The post-dispatch stage never performs an additional
acknowledgment-removal attempt. -/
lemma processAnswer_removal (cfg : HandleCfg) (env : HandleEnv)
    (answer : OneShotQAResponse) (tr : HandleTrace) :
    (processAnswer cfg env answer tr).2.removal_attempts =
      tr.removal_attempts := by
  unfold processAnswer
  split
  · rfl
  · split
    · rfl
    · dsimp only
      split
      · split
        · split <;> rfl
        · rfl
      · split
        · rfl
        · split
          · rfl
          · split <;> rfl

/-- When a run passed the early filters (it signalled the acknowledgment)
and the dispatch returned `a`, the run is the post-dispatch stage applied
to `a` with the reaction removal already recorded once. -/
lemma handle_message_dispatch_some (cfg : HandleCfg) (env : HandleEnv)
    (a : OneShotQAResponse) (hd : env.dispatch = some a)
    (hack : (handle_message cfg env).2.ack_signaled = true) :
    handle_message cfg env = processAnswer cfg env a
      { ack_signaled := true, removal_attempts := 1,
        team_notice := cfg.respond_team_member_list && cfg.is_bot_msg &&
          cfg.sender_present } := by
  unfold handle_message at hack ⊢
  split at hack
  case isTrue => simp at hack
  case isFalse h1 =>
    split at hack
    case isTrue => simp at hack
    case isFalse h2 =>
      rw [if_neg h1, if_neg h2, hd]

/-! ## Claims -/

/-- Claim C1, counterexample.  The claim states that an accepted result with
`answer_valid = false` makes the orchestrator return the outcome `false`.
At a run whose dispatch returns exactly such a result, `handle_message`
returns `True` (line 345), not `False`: the answer is discarded but the
outcome is the failure-notification one. -/
theorem c1_counterexample :
    (handle_message {} { dispatch := some { answer_valid := false } }).1 =
      .ret true ∧
    (handle_message {} { dispatch := some { answer_valid := false } }).1 ≠
      .ret false := by
  decide

/-- Claim C1, amended.  After a successful dispatch, whenever the accepted
result has `answer_valid = false`, the orchestrator discards the answer,
builds and delivers no response payload and posts no error notice, and
returns the outcome `true` (lines 339-345). -/
theorem c1_amended (cfg : HandleCfg) (env : HandleEnv)
    (a : OneShotQAResponse)
    (hd : env.dispatch = some a) (hv : a.answer_valid = false)
    (hack : (handle_message cfg env).2.ack_signaled = true) :
    (handle_message cfg env).1 = .ret true ∧
    (handle_message cfg env).2.payload = none ∧
    (handle_message cfg env).2.error_notices = 0 := by
  rw [handle_message_dispatch_some cfg env a hd hack]
  simp [processAnswer, hv]

/-- Claim C1, witness for `c1_amended` at a concrete run. -/
theorem c1_witness :
    ({ dispatch := some { answer_valid := false } } : HandleEnv).dispatch =
      some ({ answer_valid := false } : OneShotQAResponse) ∧
    ({ answer_valid := false } : OneShotQAResponse).answer_valid = false ∧
    (handle_message {} { dispatch := some { answer_valid := false } }
      ).2.ack_signaled = true ∧
    ((handle_message {} { dispatch := some { answer_valid := false } }).1 =
        .ret true ∧
      (handle_message {} { dispatch := some { answer_valid := false } }
        ).2.payload = none ∧
      (handle_message {} { dispatch := some { answer_valid := false } }
        ).2.error_notices = 0) :=
  ⟨rfl, rfl, by decide, c1_amended {} _ _ rfl rfl (by decide)⟩

/-- Claim C2, counterexample.  The claim states the admission slot is
released unconditionally when the attempt ends.  The `rate_limits` wrapper
(lines 61-68) acquires a slot and calls the wrapped function with no
release on any path; after an attempt that raised (`outcome = none`,
starting from an idle limiter) the in-use count is still incremented, so the
caller retains the slot. -/
theorem c2_counterexample :
    (rate_limits_wrapper ⟨0⟩ (none : Option Nat)).1.active_question = 1 ∧
    (rate_limits_wrapper ⟨0⟩ (none : Option Nat)).1.active_question ≠
      (⟨0⟩ : SlackRateLimiterState).active_question := by
  decide

/-- Claim C2, amended.  Whenever a generation attempt ends — returning a
result or raising — the wrapper leaves the acquired slot held: the in-use
count after the attempt is the count at acquisition plus one, on every
outcome.  No release is performed by the attempt wrapper. -/
theorem c2_amended (s : SlackRateLimiterState) (outcome : Option α) :
    (rate_limits_wrapper s outcome).1.active_question =
      s.active_question + 1 := rfl

/-- Claim C3, counterexample.  The claim states that with no answer text and
the disable-docs-only-answer flag set, the orchestrator returns the outcome
`false`.  At a run reaching that gate, `handle_message` returns `True`
(line 374), not `False`. -/
theorem c3_counterexample :
    (handle_message { disable_docs_only_answer := true }
      { dispatch := some { docs := some { top_documents := [7] } } }).1 =
      .ret true ∧
    (handle_message { disable_docs_only_answer := true }
      { dispatch := some { docs := some { top_documents := [7] } } }).1 ≠
      .ret false := by
  decide

/-- Claim C3, amended.  When the accepted result passes the validity and
document gates, has no answer text, and the disable-docs-only-answer flag
is set, the orchestrator aborts silently — no payload, no error notice —
and returns the outcome `true` (lines 369-374). -/
theorem c3_amended (cfg : HandleCfg) (env : HandleEnv)
    (a : OneShotQAResponse) (ri : QADocsResponse)
    (hd : env.dispatch = some a) (hv : a.answer_valid = true)
    (hdocs : a.docs = some ri)
    (hgate : (ri.top_documents.isEmpty &&
      !cfg.should_respond_even_with_no_docs) = false)
    (hno : strTruthy a.answer = false)
    (hflag : cfg.disable_docs_only_answer = true)
    (hack : (handle_message cfg env).2.ack_signaled = true) :
    (handle_message cfg env).1 = .ret true ∧
    (handle_message cfg env).2.payload = none ∧
    (handle_message cfg env).2.error_notices = 0 := by
  rw [handle_message_dispatch_some cfg env a hd hack]
  simp [processAnswer, hv, hdocs, hgate, hno, hflag]

/-- Claim C3, witness for `c3_amended` at a concrete run. -/
theorem c3_witness :
    ({ dispatch := some { docs := some { top_documents := [7] } } } :
        HandleEnv).dispatch =
      some ({ docs := some { top_documents := [7] } } : OneShotQAResponse) ∧
    ({ docs := some { top_documents := [7] } } :
        OneShotQAResponse).answer_valid = true ∧
    ({ docs := some { top_documents := [7] } } : OneShotQAResponse).docs =
      some ({ top_documents := [7] } : QADocsResponse) ∧
    (([7] : List Nat).isEmpty &&
      !({ disable_docs_only_answer := true } :
        HandleCfg).should_respond_even_with_no_docs) = false ∧
    strTruthy ({ docs := some { top_documents := [7] } } :
      OneShotQAResponse).answer = false ∧
    ({ disable_docs_only_answer := true } :
      HandleCfg).disable_docs_only_answer = true ∧
    (handle_message { disable_docs_only_answer := true }
      { dispatch := some { docs := some { top_documents := [7] } } }
      ).2.ack_signaled = true ∧
    ((handle_message { disable_docs_only_answer := true }
        { dispatch := some { docs := some { top_documents := [7] } } }).1 =
        .ret true ∧
      (handle_message { disable_docs_only_answer := true }
        { dispatch := some { docs := some { top_documents := [7] } } }
        ).2.payload = none ∧
      (handle_message { disable_docs_only_answer := true }
        { dispatch := some { docs := some { top_documents := [7] } } }
        ).2.error_notices = 0) :=
  ⟨rfl, rfl, rfl, by decide, rfl, rfl, by decide,
    c3_amended _ _ _ _ rfl rfl rfl (by decide) rfl rfl (by decide)⟩

/-- Claim C4, counterexample.  The claim states the acknowledgment-marker
removal is attempted exactly once on every terminal path reaching the
acknowledgment state, including when the dispatcher raises.  On the
dispatch-failure path with the error-display flag set, the error notice of
lines 304-311 is not guarded by any try: when that post raises, its
exception propagates out of `handle_message` before the removal attempt of
lines 313-321 is reached, so the removal is attempted zero times on a
terminal path that did reach the acknowledgment state. -/
theorem c4_counterexample :
    (handle_message { should_respond_with_error_msgs := true }
      { notice_raises := true }).2.ack_signaled = true ∧
    (handle_message { should_respond_with_error_msgs := true }
      { notice_raises := true }).2.removal_attempts = 0 ∧
    (handle_message { should_respond_with_error_msgs := true }
      { notice_raises := true }).1 = .raise .apiError := by
  decide

/-- Claim C4, amended.  On every terminal path of a run that reaches the
acknowledgment state — dispatcher raising or exhausting retries, a
validity/document gate suppressing the response, the document re-ordering
raising, or final delivery failing — the acknowledgment-marker removal is
attempted exactly once (lines 313-325 on the failure path, 327-337 on the
answer path, and nowhere else), except on the one path where the dispatcher
failed, the error-display flag is on and the uncaught error-notice post of
lines 304-311 itself raises before the removal is reached. -/
theorem c4_removal_once (cfg : HandleCfg) (env : HandleEnv)
    (hack : (handle_message cfg env).2.ack_signaled = true)
    (hnotice : ¬(env.dispatch = none ∧
      cfg.should_respond_with_error_msgs = true ∧
      env.notice_raises = true)) :
    (handle_message cfg env).2.removal_attempts = 1 := by
  unfold handle_message at hack ⊢
  split at hack
  case isTrue => simp at hack
  case isFalse h1 =>
    split at hack
    case isTrue => simp at hack
    case isFalse h2 =>
      rw [if_neg h1, if_neg h2]
      cases hd : env.dispatch with
      | none =>
        dsimp only
        cases hsf : cfg.should_respond_with_error_msgs with
        | false => simp
        | true =>
          cases hnr : env.notice_raises with
          | false => simp
          | true => exact absurd ⟨hd, hsf, hnr⟩ hnotice
      | some a => dsimp only; rw [processAnswer_removal]

/-- Claim C4, witness for `c4_removal_once` at a concrete run (dispatch
raised after exhausting retries, error-display flag off). -/
theorem c4_witness :
    (handle_message {} {}).2.ack_signaled = true ∧
    ¬(({} : HandleEnv).dispatch = none ∧
      ({} : HandleCfg).should_respond_with_error_msgs = true ∧
      ({} : HandleEnv).notice_raises = true) ∧
    (handle_message {} {}).2.removal_attempts = 1 :=
  ⟨by decide, by decide, c4_removal_once {} {} (by decide) (by decide)⟩

/-- Claim C5.  For every configured retry bound `R` the dispatcher makes at
most `R` generation calls; the `j`-th backoff delay (0-indexed, i.e. the
delay before retry attempt `k = j + 1`) equals `1/4 * 2 ^ j = d * 2 ^ (k-1)`
with `d = 0.25` and multiplier 2 (lines 206-211); and a generation call that
returns a result carrying a truthy error message makes that attempt fail
(lines 259-262). -/
theorem c5_retry_policy (R : Nat) (gen : Nat → GenOutcome) :
    (getAnswerRun gen R).2.1 ≤ R ∧
    (∀ j, j < (getAnswerRun gen R).2.2.length →
      (getAnswerRun gen R).2.2.get? j = some ((1 / 4 : ℚ) * 2 ^ j)) ∧
    (∀ k a, gen k = .returned a → strTruthy a.error_msg = true →
      getAnswerAttempt gen k = none) := by
  refine ⟨retryRun_calls_le _ _ R 0 _, retryRun_delays _ _ R 0 _, ?_⟩
  intro k a hk he
  simp [getAnswerAttempt, hk, he]

/-- Claim C5, witness for `c5_retry_policy` at a concrete run: three
attempts that all raise. -/
theorem c5_witness :
    (getAnswerRun (fun _ => GenOutcome.raised) 3).2.1 ≤ 3 ∧
    (getAnswerRun (fun _ => GenOutcome.raised) 3).2.2.get? 0 =
      some ((1 / 4 : ℚ) * 2 ^ 0) :=
  ⟨(c5_retry_policy 3 _).1, (c5_retry_policy 3 _).2.1 0 (by decide)⟩

/-- Claim C6, counterexample.  The claim states the fed documents are listed
in their original relative order (the order in which they appear in
`top_documents`).  With `top_documents = [10, 20]` and fed-indices `[1, 0]`
— all in range — the code renders `[20, 10]` (line 391 follows the order of
the index list), while the spec's partition renders `[10, 20]`. -/
theorem c6_counterexample :
    priority_ordered_docs [10, 20] [1, 0] = .ok [20, 10] ∧
    specFedDocs [10, 20] [1, 0] ++ remaining_docs [10, 20] [1, 0] =
      [10, 20] ∧
    ([20, 10] : List Nat) ≠ [10, 20] :=
  ⟨rfl, rfl, by decide⟩

/-- Claim C6, amended.  For every in-range fed-indices list — monotone or
not — the assembled sequence lists first the fed documents in the order
their indices appear in the fed-indices list, followed by the remaining
documents in their original retrieval order; and exactly in the case where
the fed-indices are strictly increasing, that fed prefix coincides with the
spec's original-relative-order partition. -/
theorem c6_amended (topDocs inds : List Nat)
    (hb : ∀ i ∈ inds, i < topDocs.length) :
    priority_ordered_docs topDocs inds =
      .ok (inds.map (fun i => topDocs.getD i 0) ++
        remaining_docs topDocs inds) ∧
    (inds.Pairwise (· < ·) →
      inds.map (fun i => topDocs.getD i 0) = specFedDocs topDocs inds) := by
  constructor
  · rw [priority_ordered_docs, llm_docs_ok topDocs inds hb]
  · intro hs
    rw [specFedDocs_eq topDocs inds hs hb]

/-- Claim C6, witness for `c6_amended` at a concrete bundle with
non-monotone fed-indices. -/
theorem c6_witness :
    (∀ i ∈ ([2, 0] : List Nat), i < ([10, 20, 30] : List Nat).length) ∧
    (priority_ordered_docs [10, 20, 30] [2, 0] =
      .ok (([2, 0] : List Nat).map
          (fun i => ([10, 20, 30] : List Nat).getD i 0) ++
        remaining_docs [10, 20, 30] [2, 0]) ∧
      (([2, 0] : List Nat).Pairwise (· < ·) →
        ([2, 0] : List Nat).map
            (fun i => ([10, 20, 30] : List Nat).getD i 0) =
          specFedDocs [10, 20, 30] [2, 0])) :=
  ⟨by decide, c6_amended _ _ (by decide)⟩

/-- Claim C7.  In the multi-turn, no-persona branch (lines 224-245) the
computed budgets satisfy `history_budget = floor(C * f)` and
`history_budget + document_budget + 512 + query_tokens = C`, for any
capacity `C ≥ 0`, fraction `f ≥ 0` and query token count. -/
theorem c7_token_budget (C q : ℤ) (f : ℚ) (hC : 0 ≤ C) (hf : 0 ≤ f) :
    max_history_tokens C f = ⌊(C : ℚ) * f⌋ ∧
    max_history_tokens C f + max_document_tokens C f q + 512 + q = C := by
  have h0 : (0 : ℚ) ≤ (C : ℚ) * f := mul_nonneg (by exact_mod_cast hC) hf
  constructor
  · simp [max_history_tokens, pyIntTrunc, h0]
  · simp [max_document_tokens]
    ring

/-- Claim C7, witness for `c7_token_budget` at capacity 1000, fraction 1/2,
query of 37 tokens. -/
theorem c7_witness :
    (0 : ℤ) ≤ 1000 ∧ (0 : ℚ) ≤ 1 / 2 ∧
    (max_history_tokens 1000 (1 / 2) = ⌊(1000 : ℚ) * (1 / 2)⌋ ∧
      max_history_tokens 1000 (1 / 2) +
        max_document_tokens 1000 (1 / 2) 37 + 512 + 37 = 1000) :=
  ⟨by norm_num, by norm_num, c7_token_budget 1000 37 (1 / 2) (by norm_num)
    (by norm_num)⟩

/-- Claim C8, counterexample.  The claim states that whenever the accepted
result's document bundle is absent the orchestrator raises.  A result with
`answer_valid = false` and `docs = none` is returned as the boolean `True`
by the validity gate (line 345) before the document-presence check of line
348 runs, so no error is raised. -/
theorem c8_counterexample :
    (handle_message {}
      { dispatch := some { docs := none, answer_valid := false } }).1 =
      .ret true ∧
    (handle_message {}
      { dispatch := some { docs := none, answer_valid := false } }).1 ≠
      .raise .runtimeError := by
  decide

/-- Claim C8, amended.  Whenever the accepted result passes the validity
gate (`answer_valid` is not `false`) and its document bundle is absent
(`docs = none`), the orchestrator raises a `RuntimeError` that propagates
to its caller (lines 347-350) rather than returning a boolean outcome. -/
theorem c8_amended (cfg : HandleCfg) (env : HandleEnv)
    (a : OneShotQAResponse)
    (hd : env.dispatch = some a) (hv : a.answer_valid = true)
    (hdocs : a.docs = none)
    (hack : (handle_message cfg env).2.ack_signaled = true) :
    (handle_message cfg env).1 = .raise .runtimeError := by
  rw [handle_message_dispatch_some cfg env a hd hack]
  simp [processAnswer, hv, hdocs]

/-- Claim C8, witness for `c8_amended` at a concrete run. -/
theorem c8_witness :
    ({ dispatch := some { docs := none } } : HandleEnv).dispatch =
      some ({ docs := none } : OneShotQAResponse) ∧
    ({ docs := none } : OneShotQAResponse).answer_valid = true ∧
    ({ docs := none } : OneShotQAResponse).docs = none ∧
    (handle_message {} { dispatch := some { docs := none } }
      ).2.ack_signaled = true ∧
    (handle_message {} { dispatch := some { docs := none } }).1 =
      .raise .runtimeError :=
  ⟨rfl, rfl, rfl, by decide, c8_amended {} _ _ rfl rfl rfl (by decide)⟩

/-- Claim C9.  Constructing a `DirectQARequest` fails with the validation
error exactly when `chain_of_thought` is true and `prompt_id` is not
`None`; with `chain_of_thought` false or `prompt_id = None` construction
succeeds (models.py lines 30-42). -/
theorem c9_cot_prompt_exclusive (messages : List ThreadMessage)
    (prompt_id : Option Int) (persona_id : Int) (chain_of_thought : Bool) :
    (∃ e, DirectQARequest.construct messages prompt_id persona_id
        chain_of_thought = .error e) ↔
      chain_of_thought = true ∧ prompt_id ≠ none := by
  by_cases h : chain_of_thought = true ∧ prompt_id ≠ none
  · simp only [DirectQARequest.construct, if_pos h]
    exact iff_of_true ⟨_, rfl⟩ h
  · simp only [DirectQARequest.construct, if_neg h]
    refine iff_of_false ?_ h
    rintro ⟨e, he⟩
    exact Except.noConfusion he

/-- Claim C10.  If control reaches the document re-ordering (the accepted
result passed the validity, document-presence, no-documents and docs-only
gates) and `llm_chunks_indices` contains an index that is at least the
length of `top_documents`, the unguarded subscript of line 391 raises an
`IndexError` that ends `handle_message` without a boolean outcome and
without delivering any payload. -/
theorem c10_oob_index_raises (cfg : HandleCfg) (env : HandleEnv)
    (a : OneShotQAResponse) (ri : QADocsResponse)
    (hd : env.dispatch = some a) (hv : a.answer_valid = true)
    (hdocs : a.docs = some ri)
    (hgate1 : (ri.top_documents.isEmpty &&
      !cfg.should_respond_even_with_no_docs) = false)
    (hgate2 : (!strTruthy a.answer && cfg.disable_docs_only_answer) = false)
    (hbad : ∃ i ∈ a.llm_chunks_indices.getD [],
      ri.top_documents.length ≤ i)
    (hack : (handle_message cfg env).2.ack_signaled = true) :
    (handle_message cfg env).1 = .raise .indexError ∧
    (handle_message cfg env).2.payload = none := by
  rw [handle_message_dispatch_some cfg env a hd hack]
  simp [processAnswer, hv, hdocs, hgate1, hgate2,
    priority_ordered_docs_oob _ _ hbad]

/-- Concrete accepted result for the claim-C10 witness: one retrieved
document, fed-index 3 (out of range). -/
def c10_answer : OneShotQAResponse :=
  { answer := some "a", docs := some { top_documents := [5] },
    llm_chunks_indices := some [3] }

/-- Concrete environment for the claim-C10 witness. -/
def c10_env : HandleEnv := { dispatch := some c10_answer }

/-- Claim C10, witness for `c10_oob_index_raises` at a concrete run: one
document, fed-index 3. -/
theorem c10_witness :
    c10_env.dispatch = some c10_answer ∧
    (∃ i ∈ c10_answer.llm_chunks_indices.getD [],
      ([5] : List Nat).length ≤ i) ∧
    ((handle_message {} c10_env).1 = .raise .indexError ∧
      (handle_message {} c10_env).2.payload = none) :=
  ⟨rfl, by decide,
    c10_oob_index_raises _ _ _ _ rfl rfl rfl (by decide) (by decide)
      (by decide) (by decide)⟩

end Danswer
